import Mathlib

/-!
Shallow embedding of the group resource and group data source of the
terraform-provider-openwebui repository, together with proofs about the
permission mapping and lifecycle behaviour.

Wire types are translated from internal/provider/client/groups/types.go.
The lifecycle operations are translated from the GroupResource methods
(Create, Read, Update) and from GroupDataSource.Read.  The remote client
is an oracle record whose interface is inferred from its call sites in
the resource and data source code (Create, Update, Get, List).
-/

namespace OpenWebUI

/-- Wire type WorkspacePermissions, types.go lines 25-30. -/
structure WorkspacePermissions where
  Models : Bool
  Knowledge : Bool
  Prompts : Bool
  Tools : Bool
deriving DecidableEq

/-- Wire type ChatPermissions, types.go lines 32-52. -/
structure ChatPermissions where
  FileUpload : Bool
  Delete : Bool
  Edit : Bool
  Temporary : Bool
  Controls : Bool
  Valves : Bool
  SystemPrompt : Bool
  Params : Bool
  DeleteMessage : Bool
  ContinueResponse : Bool
  RegenerateResponse : Bool
  RateResponse : Bool
  Share : Bool
  Export : Bool
  Stt : Bool
  Tts : Bool
  Call : Bool
  MultipleModels : Bool
  TemporaryEnforced : Bool
deriving DecidableEq

/-- Wire type SharingPermissions, types.go lines 54-60. -/
structure SharingPermissions where
  PublicModels : Bool
  PublicKnowledge : Bool
  PublicPrompts : Bool
  PublicTools : Bool
  PublicNotes : Bool
deriving DecidableEq

/-- Wire type FeaturesPermissions, types.go lines 62-68. -/
structure FeaturesPermissions where
  DirectToolServers : Bool
  WebSearch : Bool
  ImageGeneration : Bool
  CodeInterpreter : Bool
  Notes : Bool
deriving DecidableEq

/-- Wire type GroupPermissions, types.go lines 18-23. -/
structure GroupPermissions where
  Workspace : WorkspacePermissions
  Chat : ChatPermissions
  Sharing : SharingPermissions
  Features : FeaturesPermissions
deriving DecidableEq

/-- Wire type Group, types.go lines 5-16.  The Data and Meta fields are
untyped JSON maps (map[string]interface) that are never read or written by
the resource or data source code; they are omitted from the embedding. -/
structure Group where
  ID : String
  UserID : String
  Name : String
  Description : String
  Permissions : Option GroupPermissions
  UserIDs : List String
  CreatedAt : Int
  UpdatedAt : Int
deriving DecidableEq

/-- Configuration-side workspace permissions: the anonymous tfsdk struct
declared inside GroupResource.Create (part_000 lines 202-207) and
GroupResource.Update, and equally the attribute object built by Read. -/
structure WorkspaceConfig where
  Models : Bool
  Knowledge : Bool
  Prompts : Bool
  Tools : Bool
deriving DecidableEq

/-- Configuration-side chat permissions (part_000 lines 208-228). -/
structure ChatConfig where
  FileUpload : Bool
  Delete : Bool
  Edit : Bool
  Temporary : Bool
  Controls : Bool
  Valves : Bool
  SystemPrompt : Bool
  Params : Bool
  DeleteMessage : Bool
  ContinueResponse : Bool
  RegenerateResponse : Bool
  RateResponse : Bool
  Share : Bool
  Export : Bool
  Stt : Bool
  Tts : Bool
  Call : Bool
  MultipleModels : Bool
  TemporaryEnforced : Bool
deriving DecidableEq

/-- Configuration-side sharing permissions (part_000 lines 229-235). -/
structure SharingConfig where
  PublicModels : Bool
  PublicKnowledge : Bool
  PublicPrompts : Bool
  PublicTools : Bool
  PublicNotes : Bool
deriving DecidableEq

/-- Configuration-side features permissions (part_000 lines 236-242). -/
structure FeaturesConfig where
  DirectToolServers : Bool
  WebSearch : Bool
  ImageGeneration : Bool
  CodeInterpreter : Bool
  Notes : Bool
deriving DecidableEq

/-- Configuration-side permissions object: the four nested sub-objects of
the permissions attribute (part_000 lines 201-243). -/
structure PermissionsConfig where
  Workspace : WorkspaceConfig
  Chat : ChatConfig
  Sharing : SharingConfig
  Features : FeaturesConfig
deriving DecidableEq

/-- Config-to-wire permission copy, performed field by field in
GroupResource.Create (part_000 lines 250-292) and repeated verbatim in
GroupResource.Update (lines 556-598). -/
def toWire (p : PermissionsConfig) : GroupPermissions :=
  { Workspace :=
      { Models := p.Workspace.Models
        Knowledge := p.Workspace.Knowledge
        Prompts := p.Workspace.Prompts
        Tools := p.Workspace.Tools }
    Chat :=
      { FileUpload := p.Chat.FileUpload
        Delete := p.Chat.Delete
        Edit := p.Chat.Edit
        Temporary := p.Chat.Temporary
        Controls := p.Chat.Controls
        Valves := p.Chat.Valves
        SystemPrompt := p.Chat.SystemPrompt
        Params := p.Chat.Params
        DeleteMessage := p.Chat.DeleteMessage
        ContinueResponse := p.Chat.ContinueResponse
        RegenerateResponse := p.Chat.RegenerateResponse
        RateResponse := p.Chat.RateResponse
        Share := p.Chat.Share
        Export := p.Chat.Export
        Stt := p.Chat.Stt
        Tts := p.Chat.Tts
        Call := p.Chat.Call
        MultipleModels := p.Chat.MultipleModels
        TemporaryEnforced := p.Chat.TemporaryEnforced }
    Sharing :=
      { PublicModels := p.Sharing.PublicModels
        PublicKnowledge := p.Sharing.PublicKnowledge
        PublicPrompts := p.Sharing.PublicPrompts
        PublicTools := p.Sharing.PublicTools
        PublicNotes := p.Sharing.PublicNotes }
    Features :=
      { DirectToolServers := p.Features.DirectToolServers
        WebSearch := p.Features.WebSearch
        ImageGeneration := p.Features.ImageGeneration
        CodeInterpreter := p.Features.CodeInterpreter
        Notes := p.Features.Notes } }

/-- Wire-to-config permission copy, performed field by field in
GroupResource.Read (part_000 lines 340-479, building the workspace, chat,
sharing and features attribute objects) and repeated verbatim in
GroupDataSource.Read (groups_data_source.go lines 199-337). -/
def toConfig (w : GroupPermissions) : PermissionsConfig :=
  { Workspace :=
      { Models := w.Workspace.Models
        Knowledge := w.Workspace.Knowledge
        Prompts := w.Workspace.Prompts
        Tools := w.Workspace.Tools }
    Chat :=
      { FileUpload := w.Chat.FileUpload
        Delete := w.Chat.Delete
        Edit := w.Chat.Edit
        Temporary := w.Chat.Temporary
        Controls := w.Chat.Controls
        Valves := w.Chat.Valves
        SystemPrompt := w.Chat.SystemPrompt
        Params := w.Chat.Params
        DeleteMessage := w.Chat.DeleteMessage
        ContinueResponse := w.Chat.ContinueResponse
        RegenerateResponse := w.Chat.RegenerateResponse
        RateResponse := w.Chat.RateResponse
        Share := w.Chat.Share
        Export := w.Chat.Export
        Stt := w.Chat.Stt
        Tts := w.Chat.Tts
        Call := w.Chat.Call
        MultipleModels := w.Chat.MultipleModels
        TemporaryEnforced := w.Chat.TemporaryEnforced }
    Sharing :=
      { PublicModels := w.Sharing.PublicModels
        PublicKnowledge := w.Sharing.PublicKnowledge
        PublicPrompts := w.Sharing.PublicPrompts
        PublicTools := w.Sharing.PublicTools
        PublicNotes := w.Sharing.PublicNotes }
    Features :=
      { DirectToolServers := w.Features.DirectToolServers
        WebSearch := w.Features.WebSearch
        ImageGeneration := w.Features.ImageGeneration
        CodeInterpreter := w.Features.CodeInterpreter
        Notes := w.Features.Notes } }

/-- Resource model GroupResourceModel (part_000 lines 32-38).  The tfsdk
string values are embedded through their ValueString projections (null
becomes the empty string), the user_ids list through ElementsAs (a null
list becomes the empty slice), and the optional permissions object through
Option, mirroring the IsNull branch taken by Create and Update. -/
structure GroupResourceModel where
  ID : String
  Name : String
  Description : String
  UserIDs : List String
  Permissions : Option PermissionsConfig
deriving DecidableEq

/-- Data source model GroupDataSourceModel (groups_data_source.go lines
31-39), embedded with the same conventions as GroupResourceModel. -/
structure GroupDataSourceModel where
  ID : String
  Name : String
  Description : String
  UserIDs : List String
  Permissions : Option PermissionsConfig
  CreatedAt : Int
  UpdatedAt : Int
deriving DecidableEq

/-- A diagnostic as produced by resp.Diagnostics.AddError: a summary and a
detail string. -/
structure Diagnostic where
  summary : String
  detail : String
deriving DecidableEq

/-- One remote API invocation, recorded so that theorems can speak about
which calls an operation issues and in which order. -/
inductive RemoteCall where
  | createCall (g : Group)
  | updateCall (id : String) (g : Group)
  | getCall (id : String)
  | listCall
  | deleteCall (id : String)
deriving DecidableEq

/-- The remote groups client, an oracle record.  Its interface is inferred
from the call sites in the resource and data source code: r.client.Create,
r.client.Update, r.client.Get, r.client.Delete and d.client.List.  Errors
are carried as the strings interpolated into the diagnostics. -/
structure Client where
  create : Group → Except String Group
  update : String → Group → Except String Group
  get : String → Except String Group
  listGroups : Except String (List Group)
  deleteGroup : String → Option String

/-- The first-stage creation payload built in Create (part_000 lines
169-173): only name and description are set; every other field keeps its
Go zero value (nil slice, nil pointer, zero ints, empty strings). -/
def basicGroup (plan : GroupResourceModel) : Group :=
  { ID := ""
    UserID := ""
    Name := plan.Name
    Description := plan.Description
    Permissions := none
    UserIDs := []
    CreatedAt := 0
    UpdatedAt := 0 }

/-- The full outbound payload built in Create (part_000 lines 184-293) and
identically in Update (lines 493-599): name, description, the whole
user_ids list, and the mapped permissions (or nil when the plan's
permissions object is null). -/
def fullGroup (plan : GroupResourceModel) : Group :=
  { ID := ""
    UserID := ""
    Name := plan.Name
    Description := plan.Description
    Permissions := plan.Permissions.map toWire
    UserIDs := plan.UserIDs
    CreatedAt := 0
    UpdatedAt := 0 }

/-- GroupResource.Create (part_000 lines 161-309): create with basic
information, then update the returned id with the full payload; on success
the plan with only ID overwritten becomes the state.  The second component
records the remote calls issued, in order. -/
def createResource (c : Client) (plan : GroupResourceModel) :
    Except Diagnostic GroupResourceModel × List RemoteCall :=
  match c.create (basicGroup plan) with
  | Except.error e =>
      (Except.error
        { summary := "Error creating group"
          detail := "Could not create group: " ++ e },
       [RemoteCall.createCall (basicGroup plan)])
  | Except.ok created =>
      match c.update created.ID (fullGroup plan) with
      | Except.error e =>
          (Except.error
            { summary := "Error updating group"
              detail := "Could not update group with ID " ++ created.ID ++ ": " ++ e },
           [RemoteCall.createCall (basicGroup plan),
            RemoteCall.updateCall created.ID (fullGroup plan)])
      | Except.ok updated =>
          (Except.ok { plan with ID := updated.ID },
           [RemoteCall.createCall (basicGroup plan),
            RemoteCall.updateCall created.ID (fullGroup plan)])

/-- sort.Strings as invoked at part_000 line 331: the ascending sorted
rearrangement of the list.  Under the total order on strings the sorted
permutation is unique, so insertion sort is extensionally the same
function as the Go standard library sort. -/
def sortStrings (l : List String) : List String :=
  List.insertionSort (fun a b => a ≤ b) l

/-- GroupResource.Read (part_000 lines 311-483): fetch by the state's id;
on any client error add the reading diagnostic; otherwise overwrite name,
description and the sorted user_ids, and overwrite permissions only when
the remote group carries a permissions object (lines 340 and 478) — when
the remote permissions is nil the state's previous permissions value is
left untouched. -/
def readResource (c : Client) (st : GroupResourceModel) :
    Except Diagnostic GroupResourceModel :=
  match c.get st.ID with
  | Except.error e =>
      Except.error
        { summary := "Error reading group"
          detail := "Could not read group ID " ++ st.ID ++ ": " ++ e }
  | Except.ok g =>
      match g.Permissions with
      | some p =>
          Except.ok
            { st with
              Name := g.Name
              Description := g.Description
              UserIDs := sortStrings g.UserIDs
              Permissions := some (toConfig p) }
      | none =>
          Except.ok
            { st with
              Name := g.Name
              Description := g.Description
              UserIDs := sortStrings g.UserIDs }

/-- GroupResource.Update (part_000 lines 485-614): build the full payload
from the plan alone (the prior state is never read), call update on the
plan's id, and on success write the plan with only ID overwritten as the
new state.  The second component records the remote calls issued. -/
def updateResource (c : Client) (plan : GroupResourceModel) :
    Except Diagnostic GroupResourceModel × List RemoteCall :=
  match c.update plan.ID (fullGroup plan) with
  | Except.error e =>
      (Except.error
        { summary := "Error updating group"
          detail := "Could not update group ID " ++ plan.ID ++ ": " ++ e },
       [RemoteCall.updateCall plan.ID (fullGroup plan)])
  | Except.ok updated =>
      (Except.ok { plan with ID := updated.ID },
       [RemoteCall.updateCall plan.ID (fullGroup plan)])

/-- The data source model assembled for a matched group inside the list
loop of GroupDataSource.Read (groups_data_source.go lines 182-342): id,
description and timestamps copied from the group, user_ids copied verbatim
in remote order, permissions mapped only when non-nil (the computed
permissions attribute of the configuration is null, so a nil remote
permissions stays null), and the name kept from the query. -/
def dsModel (q : String) (g : Group) : GroupDataSourceModel :=
  { ID := g.ID
    Name := q
    Description := g.Description
    UserIDs := g.UserIDs
    Permissions := g.Permissions.map toConfig
    CreatedAt := g.CreatedAt
    UpdatedAt := g.UpdatedAt }

/-- GroupDataSource.Read (groups_data_source.go lines 164-355): list all
groups, walk the list in order and keep the first group whose name equals
the queried name exactly; report the not-found diagnostic when no group
matches. -/
def readDataSource (c : Client) (q : String) :
    Except Diagnostic GroupDataSourceModel :=
  match c.listGroups with
  | Except.error e =>
      Except.error
        { summary := "Client Error"
          detail := "Unable to read groups, got error: " ++ e }
  | Except.ok gs =>
      match gs.find? (fun g => g.Name == q) with
      | some g => Except.ok (dsModel q g)
      | none =>
          Except.error
            { summary := "Group Not Found"
              detail := "No group found with name: " ++ q }

/-- Go encoding/json unmarshalling of the WorkspacePermissions wire struct
(types.go lines 25-30): every field carries a plain json tag, there is no
omitempty and no custom unmarshaller, so a key absent from the JSON object
leaves the struct field at its zero value false.  A wire JSON object is
modelled as a partial map from key to boolean value. -/
def decodeWorkspacePermissions (obj : String → Option Bool) : WorkspacePermissions :=
  { Models := (obj "models").getD false
    Knowledge := (obj "knowledge").getD false
    Prompts := (obj "prompts").getD false
    Tools := (obj "tools").getD false }

/-- Go encoding/json unmarshalling of ChatPermissions (types.go lines
32-52), with the same absent-key-to-false semantics. -/
def decodeChatPermissions (obj : String → Option Bool) : ChatPermissions :=
  { FileUpload := (obj "file_upload").getD false
    Delete := (obj "delete").getD false
    Edit := (obj "edit").getD false
    Temporary := (obj "temporary").getD false
    Controls := (obj "controls").getD false
    Valves := (obj "valves").getD false
    SystemPrompt := (obj "system_prompt").getD false
    Params := (obj "params").getD false
    DeleteMessage := (obj "delete_message").getD false
    ContinueResponse := (obj "continue_response").getD false
    RegenerateResponse := (obj "regenerate_response").getD false
    RateResponse := (obj "rate_response").getD false
    Share := (obj "share").getD false
    Export := (obj "export").getD false
    Stt := (obj "stt").getD false
    Tts := (obj "tts").getD false
    Call := (obj "call").getD false
    MultipleModels := (obj "multiple_models").getD false
    TemporaryEnforced := (obj "temporary_enforced").getD false }

/-- Go encoding/json unmarshalling of SharingPermissions (types.go lines
54-60). -/
def decodeSharingPermissions (obj : String → Option Bool) : SharingPermissions :=
  { PublicModels := (obj "public_models").getD false
    PublicKnowledge := (obj "public_knowledge").getD false
    PublicPrompts := (obj "public_prompts").getD false
    PublicTools := (obj "public_tools").getD false
    PublicNotes := (obj "public_notes").getD false }

/-- Go encoding/json unmarshalling of FeaturesPermissions (types.go lines
62-68). -/
def decodeFeaturesPermissions (obj : String → Option Bool) : FeaturesPermissions :=
  { DirectToolServers := (obj "direct_tool_servers").getD false
    WebSearch := (obj "web_search").getD false
    ImageGeneration := (obj "image_generation").getD false
    CodeInterpreter := (obj "code_interpreter").getD false
    Notes := (obj "notes").getD false }

/-- Go encoding/json unmarshalling of GroupPermissions (types.go lines
18-23) from its four sub-objects: decoding is total, no shape validation
occurs anywhere in the repository. -/
def decodeGroupPermissions (w ch s f : String → Option Bool) : GroupPermissions :=
  { Workspace := decodeWorkspacePermissions w
    Chat := decodeChatPermissions ch
    Sharing := decodeSharingPermissions s
    Features := decodeFeaturesPermissions f }

/-- A concrete all-true configuration permissions object, used as example
data. -/
def pAllTrue : PermissionsConfig :=
  { Workspace := { Models := true, Knowledge := true, Prompts := true, Tools := true }
    Chat :=
      { FileUpload := true, Delete := true, Edit := true, Temporary := true
        Controls := true, Valves := true, SystemPrompt := true, Params := true
        DeleteMessage := true, ContinueResponse := true, RegenerateResponse := true
        RateResponse := true, Share := true, Export := true, Stt := true
        Tts := true, Call := true, MultipleModels := true, TemporaryEnforced := true }
    Sharing :=
      { PublicModels := true, PublicKnowledge := true, PublicPrompts := true
        PublicTools := true, PublicNotes := true }
    Features :=
      { DirectToolServers := true, WebSearch := true, ImageGeneration := true
        CodeInterpreter := true, Notes := true } }

/-- A client stub whose every endpoint fails; concrete example clients
override individual endpoints. -/
def clientStub : Client :=
  { create := fun _ => Except.error "unused"
    update := fun _ _ => Except.error "unused"
    get := fun _ => Except.error "unused"
    listGroups := Except.error "unused"
    deleteGroup := fun _ => some "unused" }

/-- A remote group with no permissions object. -/
def gNoPerms : Group :=
  { ID := "g1", UserID := "", Name := "eng", Description := "d"
    Permissions := none, UserIDs := [], CreatedAt := 0, UpdatedAt := 0 }

/-- A client whose get returns the permissionless group. -/
def cNoPerms : Client := { clientStub with get := fun _ => Except.ok gNoPerms }

/-- A prior resource state that holds a non-null permissions object. -/
def stPerms : GroupResourceModel :=
  { ID := "g1", Name := "eng", Description := "d", UserIDs := []
    Permissions := some pAllTrue }

/-- The group returned by the first-stage create in the partial-failure
scenario. -/
def gCreated : Group :=
  { ID := "grp-1", UserID := "", Name := "eng", Description := "d"
    Permissions := none, UserIDs := [], CreatedAt := 0, UpdatedAt := 0 }

/-- A client that succeeds on create and fails on the follow-up update. -/
def cPartial : Client :=
  { clientStub with
    create := fun _ => Except.ok gCreated
    update := fun _ _ => Except.error "boom" }

/-- A plan used by the create and update examples. -/
def planEx : GroupResourceModel :=
  { ID := "", Name := "eng", Description := "d", UserIDs := ["u1", "u2"]
    Permissions := some pAllTrue }

/-- Remote group named eng. -/
def gEng : Group :=
  { ID := "id-eng", UserID := "", Name := "eng", Description := "engineering"
    Permissions := none, UserIDs := ["u1"], CreatedAt := 1, UpdatedAt := 2 }

/-- Remote group named ops. -/
def gOps : Group :=
  { ID := "id-ops", UserID := "", Name := "ops", Description := "operations"
    Permissions := none, UserIDs := ["u2"], CreatedAt := 3, UpdatedAt := 4 }

/-- A client whose list returns the two groups eng and ops, in that
order. -/
def cList : Client := { clientStub with listGroups := Except.ok [gEng, gOps] }

/-- A remote group whose user ids arrive unsorted. -/
def gBA : Group :=
  { ID := "g1", UserID := "", Name := "eng", Description := "d"
    Permissions := none, UserIDs := ["b", "a"], CreatedAt := 0, UpdatedAt := 0 }

/-- A client whose get returns the unsorted-members group. -/
def cGetBA : Client := { clientStub with get := fun _ => Except.ok gBA }

/-- A client whose get fails with a not-found transport error. -/
def cNF : Client :=
  { clientStub with get := fun _ => Except.error "group not found" }

/-- A client whose get fails with a generic transport error. -/
def cTE : Client :=
  { clientStub with get := fun _ => Except.error "connection refused" }

/-- The group returned by the successful second-stage update; its id is the
value the state must take. -/
def gUpdated : Group :=
  { ID := "srv-9", UserID := "", Name := "eng", Description := "d"
    Permissions := none, UserIDs := ["u1", "u2"], CreatedAt := 5, UpdatedAt := 6 }

/-- A client that succeeds on both create and update. -/
def cOK : Client :=
  { clientStub with
    create := fun _ => Except.ok gCreated
    update := fun _ _ => Except.ok gUpdated }

/-- A remote group whose user ids arrive unsorted and with a duplicate. -/
def gDup : Group :=
  { ID := "id-dup", UserID := "", Name := "dup", Description := ""
    Permissions := none, UserIDs := ["b", "a", "b"], CreatedAt := 0, UpdatedAt := 0 }

/-- A client whose list returns the duplicate-members group. -/
def cListDup : Client := { clientStub with listGroups := Except.ok [gDup] }

/-- A wire workspace JSON object carrying models, knowledge and prompts but
missing the tools key. -/
def wNoTools : String → Option Bool := fun k =>
  if k = "models" then some true
  else if k = "knowledge" then some true
  else if k = "prompts" then some true
  else none

/-- A plan whose permissions configuration is null. -/
def planNull : GroupResourceModel :=
  { ID := "g1", Name := "eng", Description := "d", UserIDs := []
    Permissions := none }

/-- A client whose list returns only the permissionless group. -/
def cListNoPerms : Client := { clientStub with listGroups := Except.ok [gNoPerms] }

/-- A wire JSON object carrying every key with value true. -/
def allTrueObj : String → Option Bool := fun _ => some true


/-- The wire-to-config copy of Read undoes the config-to-wire copy of
Create and Update, field for field. -/
theorem toConfig_toWire (p : PermissionsConfig) : toConfig (toWire p) = p := rfl

/-- The config-to-wire copy of Create and Update undoes the
wire-to-config copy of Read, field for field. -/
theorem toWire_toConfig (w : GroupPermissions) : toWire (toConfig w) = w := rfl

/-- The normalized member list is sorted ascending. -/
theorem sortStrings_sorted (l : List String) :
    List.Sorted (fun a b => a ≤ b) (sortStrings l) :=
  List.sorted_insertionSort _ l

/-- The normalized member list is a rearrangement of the input. -/
theorem sortStrings_perm (l : List String) : List.Perm (sortStrings l) l :=
  List.perm_insertionSort _ l

/-- Lists that are rearrangements of one another normalize to the same
sorted list. -/
theorem sortStrings_eq_of_perm {l1 l2 : List String} (h : List.Perm l1 l2) :
    sortStrings l1 = sortStrings l2 :=
  List.eq_of_perm_of_sorted
    ((sortStrings_perm l1).trans (h.trans (sortStrings_perm l2).symm))
    (sortStrings_sorted l1) (sortStrings_sorted l2)

/-- A list search returns the marked element when everything before it
fails the test and the element passes it. -/
theorem find?_first {A : Type} (p : A → Bool) (l1 l2 : List A) (a : A)
    (ha : p a = true) (h1 : ∀ x ∈ l1, p x = false) :
    List.find? p (l1 ++ a :: l2) = some a := by
  induction l1 with
  | nil => simp [List.find?_cons_of_pos, ha]
  | cons x xs ih =>
    have hx := h1 x (List.mem_cons_self x xs)
    rw [List.cons_append, List.find?_cons_of_neg _ (by simp [hx])]
    exact ih (fun y hy => h1 y (List.mem_cons_of_mem x hy))

/-- C1: for every permissions structure with all 33 boolean flags,
converting the configuration form to the wire form (the field-by-field
copy performed in Create and Update) and converting back (the
field-by-field copy performed in Read) is the identity, and symmetrically
wire-to-config-to-wire is the identity on wire permission objects. -/
theorem c1_permissions_roundtrip :
    (∀ p : PermissionsConfig, toConfig (toWire p) = p) ∧
    (∀ w : GroupPermissions, toWire (toConfig w) = w) :=
  ⟨toConfig_toWire, toWire_toConfig⟩

/-- C2 counterexample: the remote group gNoPerms carries a null
permissions field, yet the resource Read over the prior state stPerms
returns that state unchanged, and its permissions field is the non-null
object pAllTrue, not null — the claim that Read always yields a null
permissions field from a null remote one fails on the resource. -/
theorem c2_null_propagation_counterexample :
    readResource cNoPerms stPerms = Except.ok stPerms ∧
    stPerms.Permissions = some pAllTrue ∧
    some pAllTrue ≠ (none : Option PermissionsConfig) := by
  refine ⟨rfl, rfl, ?_⟩
  intro h
  exact Option.noConfusion h

/-- C2 amended: null propagation holds outbound — a null configuration
permissions field yields Create and Update payloads with no permissions
object — and for the data source, whose state carries a null permissions
field when the matched remote group has none; the resource Read, however,
leaves the prior state value of the permissions field untouched when the
remote permissions is null, rather than setting it to null; no branch
ever fabricates an all-false permissions object. -/
theorem c2_null_propagation_amended
    (plan : GroupResourceModel) (hplan : plan.Permissions = none)
    (c : Client) (st : GroupResourceModel) (g : Group)
    (hget : c.get st.ID = Except.ok g) (hg : g.Permissions = none)
    (c2 : Client) (q : String) (gs : List Group) (g2 : Group)
    (hlist : c2.listGroups = Except.ok gs)
    (hfind : gs.find? (fun x => x.Name == q) = some g2)
    (hg2 : g2.Permissions = none) :
    (basicGroup plan).Permissions = none ∧
    (fullGroup plan).Permissions = none ∧
    readResource c st =
      Except.ok { st with Name := g.Name, Description := g.Description,
                          UserIDs := sortStrings g.UserIDs } ∧
    (readDataSource c2 q).toOption.map GroupDataSourceModel.Permissions = some none := by
  refine ⟨rfl, by simp [fullGroup, hplan], ?_, ?_⟩
  · simp [readResource, hget, hg]
  · simp [readDataSource, hlist, hfind, dsModel, hg2, Except.toOption]

/-- C2 witness: the amended statement evaluated at the concrete plan with
null permissions, the permissionless remote group and the singleton group
list. -/
theorem c2_null_propagation_witness :
    (basicGroup planNull).Permissions = none ∧
    (fullGroup planNull).Permissions = none ∧
    readResource cNoPerms planNull =
      Except.ok { planNull with Name := "eng", Description := "d", UserIDs := [] } ∧
    (readDataSource cListNoPerms "eng").toOption.map GroupDataSourceModel.Permissions =
      some none :=
  c2_null_propagation_amended planNull rfl cNoPerms planNull gNoPerms rfl rfl
    cListNoPerms "eng" [gNoPerms] gNoPerms rfl rfl rfl

/-- C3: Create is two-stage — the first remote call carries only name and
description, the second is a full update (name, description, member list,
mapped permissions) targeting the id the create returned; a failure at
each stage is reported with a distinct diagnostic, the second stage
naming the created id, and no delete call is ever issued, so the first
stage is not rolled back. -/
theorem c3_create_two_stage (c : Client) (plan : GroupResourceModel) :
    ((basicGroup plan).Name = plan.Name ∧
     (basicGroup plan).Description = plan.Description ∧
     (basicGroup plan).Permissions = none ∧
     (basicGroup plan).UserIDs = []) ∧
    ((fullGroup plan).Name = plan.Name ∧
     (fullGroup plan).Description = plan.Description ∧
     (fullGroup plan).UserIDs = plan.UserIDs ∧
     (fullGroup plan).Permissions = plan.Permissions.map toWire) ∧
    (∀ e, c.create (basicGroup plan) = Except.error e →
      createResource c plan =
        (Except.error { summary := "Error creating group",
                        detail := "Could not create group: " ++ e },
         [RemoteCall.createCall (basicGroup plan)])) ∧
    (∀ created e, c.create (basicGroup plan) = Except.ok created →
      c.update created.ID (fullGroup plan) = Except.error e →
      createResource c plan =
        (Except.error { summary := "Error updating group",
                        detail := "Could not update group with ID " ++ created.ID ++ ": " ++ e },
         [RemoteCall.createCall (basicGroup plan),
          RemoteCall.updateCall created.ID (fullGroup plan)])) ∧
    (∀ i, RemoteCall.deleteCall i ∉ (createResource c plan).2) ∧
    "Error creating group" ≠ "Error updating group" := by
  refine ⟨⟨rfl, rfl, rfl, rfl⟩, ⟨rfl, rfl, rfl, rfl⟩, ?_, ?_, ?_, by decide⟩
  · intro e he
    simp [createResource, he]
  · intro created e hc hu
    simp [createResource, hc, hu]
  · intro i
    unfold createResource
    cases h1 : c.create (basicGroup plan) with
    | error e => simp [h1]
    | ok created =>
      cases h2 : c.update created.ID (fullGroup plan) with
      | error e => simp [h2]
      | ok updated => simp [h2]

/-- C3 witness: against a client that succeeds on create and fails on the
follow-up update, Create reports the update-stage diagnostic naming the
created id grp-1, and the call trace holds no delete. -/
theorem c3_create_two_stage_witness :
    createResource cPartial planEx =
      (Except.error { summary := "Error updating group",
                      detail := "Could not update group with ID grp-1: boom" },
       [RemoteCall.createCall (basicGroup planEx),
        RemoteCall.updateCall "grp-1" (fullGroup planEx)]) ∧
    RemoteCall.deleteCall "grp-1" ∉ (createResource cPartial planEx).2 := by
  have h := c3_create_two_stage cPartial planEx
  exact ⟨h.2.2.2.1 gCreated "boom" rfl rfl, h.2.2.2.2.1 "grp-1"⟩

/-- C4 counterexample: decoding the wire workspace object that is missing
the tools key succeeds and yields a workspace permissions value whose
Tools flag is false — the missing flag is silently treated as false, and
no ShapeError (or any failure) occurs. -/
theorem c4_missing_flag_counterexample :
    wNoTools "tools" = none ∧
    decodeWorkspacePermissions wNoTools =
      { Models := true, Knowledge := true, Prompts := true, Tools := false } :=
  ⟨rfl, rfl⟩

/-- C4 amended: decoding a wire permissions object whose workspace
sub-object is missing the tools key always succeeds — the repository
performs no shape validation — and silently sets the missing flag to its
zero value false while the flags that are present keep their transmitted
values. -/
theorem c4_missing_flag_amended (w ch s f : String → Option Bool)
    (hw : w "tools" = none) :
    (decodeGroupPermissions w ch s f).Workspace.Tools = false ∧
    (decodeGroupPermissions w ch s f).Workspace.Models = (w "models").getD false ∧
    (decodeGroupPermissions w ch s f).Workspace.Knowledge = (w "knowledge").getD false ∧
    (decodeGroupPermissions w ch s f).Workspace.Prompts = (w "prompts").getD false := by
  simp [decodeGroupPermissions, decodeWorkspacePermissions, hw]

/-- C4 witness: the amended statement evaluated at the concrete
tools-less workspace object. -/
theorem c4_missing_flag_witness :
    (decodeGroupPermissions wNoTools allTrueObj allTrueObj allTrueObj).Workspace.Tools = false ∧
    (decodeGroupPermissions wNoTools allTrueObj allTrueObj allTrueObj).Workspace.Models =
      (wNoTools "models").getD false ∧
    (decodeGroupPermissions wNoTools allTrueObj allTrueObj allTrueObj).Workspace.Knowledge =
      (wNoTools "knowledge").getD false ∧
    (decodeGroupPermissions wNoTools allTrueObj allTrueObj allTrueObj).Workspace.Prompts =
      (wNoTools "prompts").getD false :=
  c4_missing_flag_amended wNoTools allTrueObj allTrueObj allTrueObj rfl

/-- C5: for any remote group list and queried name, the data source
lookup returns the first group in list order whose name equals the query
exactly, and reports the not-found diagnostic if and only if no group in
the list bears the queried name. -/
theorem c5_lookup_by_name (c : Client) (q : String) (gs : List Group)
    (h : c.listGroups = Except.ok gs) :
    (∀ l1 g l2, gs = l1 ++ g :: l2 → g.Name = q → (∀ g2 ∈ l1, g2.Name ≠ q) →
      readDataSource c q = Except.ok (dsModel q g)) ∧
    (readDataSource c q =
        Except.error { summary := "Group Not Found",
                       detail := "No group found with name: " ++ q } ↔
      ∀ g ∈ gs, g.Name ≠ q) := by
  constructor
  · intro l1 g l2 hgs hname hfirst
    subst hgs
    have hfind := find?_first (fun x => x.Name == q) l1 l2 g
      (by simp [hname]) (fun x hx => by simp [hfirst x hx])
    simp [readDataSource, h, hfind]
  · constructor
    · intro heq g hg hname
      cases hfind : gs.find? (fun x => x.Name == q) with
      | none =>
        have := List.find?_eq_none.mp hfind g hg
        simp [hname] at this
      | some g2 =>
        have hok : readDataSource c q = Except.ok (dsModel q g2) := by
          simp [readDataSource, h, hfind]
        rw [hok] at heq
        exact Except.noConfusion heq
    · intro hall
      have hfind : gs.find? (fun x => x.Name == q) = none :=
        List.find?_eq_none.mpr (fun x hx => by simp [hall x hx])
      simp [readDataSource, h, hfind]

/-- C5 witness: over the remote list holding eng then ops, querying ops
returns the ops record and querying sales reports not found. -/
theorem c5_lookup_by_name_witness :
    readDataSource cList "ops" = Except.ok (dsModel "ops" gOps) ∧
    readDataSource cList "sales" =
      Except.error { summary := "Group Not Found",
                     detail := "No group found with name: sales" } := by
  constructor
  · exact (c5_lookup_by_name cList "ops" [gEng, gOps] rfl).1 [gEng] gOps [] rfl rfl
      (by intro g2 hg2; simp at hg2; subst hg2; decide)
  · exact (c5_lookup_by_name cList "sales" [gEng, gOps] rfl).2.mpr (by decide)

/-- C6: Update always sends the full replacement payload built from the
desired plan alone — name, description, the complete member list and the
complete mapped permissions — in a single update call; the
config-to-wire mapping loses no flag, so all 33 flag values are carried
unchanged even when only the name changed. -/
theorem c6_update_full_payload (c : Client) (plan : GroupResourceModel) :
    (updateResource c plan).2 = [RemoteCall.updateCall plan.ID (fullGroup plan)] ∧
    (fullGroup plan).Name = plan.Name ∧
    (fullGroup plan).Description = plan.Description ∧
    (fullGroup plan).UserIDs = plan.UserIDs ∧
    (fullGroup plan).Permissions = plan.Permissions.map toWire ∧
    (∀ p : PermissionsConfig, toConfig (toWire p) = p) := by
  refine ⟨?_, rfl, rfl, rfl, rfl, toConfig_toWire⟩
  unfold updateResource
  cases c.update plan.ID (fullGroup plan) <;> rfl

/-- C7: the member list Read writes to state is the remote list sorted
ascending; the normalization maps any rearrangement of the same remote
list to the identical state and is idempotent. -/
theorem c7_read_sorts_user_ids (c : Client) (st : GroupResourceModel) (g : Group)
    (h : c.get st.ID = Except.ok g) :
    (readResource c st).toOption.map GroupResourceModel.UserIDs =
      some (sortStrings g.UserIDs) ∧
    List.Sorted (fun a b => a ≤ b) (sortStrings g.UserIDs) ∧
    List.Perm (sortStrings g.UserIDs) g.UserIDs ∧
    (∀ l, List.Perm l g.UserIDs → sortStrings l = sortStrings g.UserIDs) ∧
    sortStrings (sortStrings g.UserIDs) = sortStrings g.UserIDs := by
  refine ⟨?_, sortStrings_sorted _, sortStrings_perm _,
    fun l hl => sortStrings_eq_of_perm hl,
    sortStrings_eq_of_perm (sortStrings_perm _)⟩
  unfold readResource
  rw [h]
  cases hp : g.Permissions <;> simp [hp, Except.toOption]

/-- C7 witness: reading the remote list b,a yields the sorted list a,b,
and the list a,b normalizes to the same result. -/
theorem c7_read_sorts_user_ids_witness :
    (readResource cGetBA stPerms).toOption.map GroupResourceModel.UserIDs =
      some (sortStrings ["b", "a"]) ∧
    sortStrings ["b", "a"] = ["a", "b"] ∧
    sortStrings ["a", "b"] = sortStrings ["b", "a"] := by
  have h := c7_read_sorts_user_ids cGetBA stPerms gBA rfl
  refine ⟨h.1, ?_, h.2.2.2.1 ["a", "b"] (List.Perm.swap "b" "a" [])⟩
  simp [sortStrings, List.insertionSort, List.orderedInsert]
  decide

/-- C8 counterexample: a get failure denoting a missing remote group and
a get failure denoting a transport problem both produce the same outcome
constructor with the same diagnostic summary — Read gives a missing
target no outcome distinct from other transport errors. -/
theorem c8_notfound_counterexample :
    readResource cNF stPerms =
      Except.error { summary := "Error reading group",
                     detail := "Could not read group ID g1: group not found" } ∧
    readResource cTE stPerms =
      Except.error { summary := "Error reading group",
                     detail := "Could not read group ID g1: connection refused" } :=
  ⟨rfl, rfl⟩

/-- C8 amended: every failure of the remote get, a missing group
included, is reported through the same hard-fail diagnostic whose summary
is fixed and whose detail interpolates the remote error text; Read
produces no distinct not-found outcome and never drops the record from
state. -/
theorem c8_notfound_amended (c : Client) (st : GroupResourceModel) (e : String)
    (h : c.get st.ID = Except.error e) :
    readResource c st =
      Except.error { summary := "Error reading group",
                     detail := "Could not read group ID " ++ st.ID ++ ": " ++ e } := by
  unfold readResource
  rw [h]

/-- C8 witness: the amended statement evaluated at the concrete client
whose get fails with a not-found error. -/
theorem c8_notfound_witness :
    readResource cNF stPerms =
      Except.error { summary := "Error reading group",
                     detail := "Could not read group ID " ++ "g1" ++ ": " ++ "group not found" } :=
  c8_notfound_amended cNF stPerms "group not found" rfl

/-- C9: on a fully successful Create or Update the state written back is
the planned configuration with only the id field replaced by the id of
the remote update response; name, description, member list and
permissions in the state are the plan values, never server-computed
ones. -/
theorem c9_state_frame (c : Client) (plan : GroupResourceModel)
    (created updated : Group)
    (h1 : c.create (basicGroup plan) = Except.ok created)
    (h2 : c.update created.ID (fullGroup plan) = Except.ok updated) :
    (createResource c plan).1 = Except.ok { plan with ID := updated.ID } ∧
    ({ plan with ID := updated.ID } : GroupResourceModel).Name = plan.Name ∧
    ({ plan with ID := updated.ID } : GroupResourceModel).Description = plan.Description ∧
    ({ plan with ID := updated.ID } : GroupResourceModel).UserIDs = plan.UserIDs ∧
    ({ plan with ID := updated.ID } : GroupResourceModel).Permissions = plan.Permissions ∧
    (∀ u2, c.update plan.ID (fullGroup plan) = Except.ok u2 →
      (updateResource c plan).1 = Except.ok { plan with ID := u2.ID }) := by
  refine ⟨?_, rfl, rfl, rfl, rfl, ?_⟩
  · simp [createResource, h1, h2]
  · intro u2 hu
    simp [updateResource, hu]

/-- C9 witness: against a client whose update response carries id srv-9,
Create and Update both store the plan with only the id replaced by
srv-9. -/
theorem c9_state_frame_witness :
    (createResource cOK planEx).1 = Except.ok { planEx with ID := "srv-9" } ∧
    (updateResource cOK planEx).1 = Except.ok { planEx with ID := "srv-9" } := by
  have h := c9_state_frame cOK planEx gCreated gUpdated rfl rfl
  exact ⟨h.1, h.2.2.2.2.2 gUpdated rfl⟩

/-- C10: the data source copies the matched group member list into state
in the exact order returned by the remote list call, with no sorting and
no deduplication. -/
theorem c10_datasource_user_ids_order (c : Client) (q : String)
    (gs : List Group) (g : Group) (h : c.listGroups = Except.ok gs)
    (hf : gs.find? (fun x => x.Name == q) = some g) :
    readDataSource c q = Except.ok (dsModel q g) ∧
    (dsModel q g).UserIDs = g.UserIDs := by
  refine ⟨?_, rfl⟩
  simp [readDataSource, h, hf]

/-- C10 witness: the matched group arriving with member list b,a,b is
stored verbatim, which differs from the sorted normalization the resource
Read would apply. -/
theorem c10_datasource_user_ids_order_witness :
    readDataSource cListDup "dup" = Except.ok (dsModel "dup" gDup) ∧
    (dsModel "dup" gDup).UserIDs = ["b", "a", "b"] ∧
    sortStrings ["b", "a", "b"] = ["a", "b", "b"] ∧
    ["b", "a", "b"] ≠ ["a", "b", "b"] := by
  have h := c10_datasource_user_ids_order cListDup "dup" [gDup] gDup rfl rfl
  refine ⟨h.1, h.2, ?_, by decide⟩
  simp [sortStrings, List.insertionSort, List.orderedInsert]
  decide

end OpenWebUI
